import Mathlib

/-
Verification of the query orchestration and aggregation layer of
flatiron-usage-vizwall (src/src/renderer/App.tsx).

Shallow embedding conventions:
  * JavaScript runtime values flowing through the fetch pipeline are
    modelled by `JsonValue` (including the distinguished `undefined`).
  * A settled promise is modelled by `Except JsError v` (resolution
    value vs rejection value); a pending promise additionally carries a
    completion time, see `JsPromise`.
  * `new Date()` is modelled by an `Int` of epoch milliseconds supplied
    as a parameter `now`; `Date.prototype.toISOString` is implemented as
    `toISOString` below.  `d3.timeDay.offset(end, -k)` is modelled as
    `end - k * 86400000` (whole 24-hour days; daylight-saving shifts of
    the local calendar are outside the model).
  * The network is modelled by an environment (`FetchEnv`) assigning to
    each (query, mode) pair the settlement of `d3.json`: either a
    rejection carrying an Error object, or a resolution carrying the
    decoded JSON body.  `console.log` is effect-free and returns
    undefined, which is how the catch handler is modelled.
-/

/-- A JSON / JavaScript runtime value as it flows through the fetch
pipeline.  `undefined` is JavaScript `undefined` (absent object fields, the
return value of `console.log`, ...). -/
inductive JsonValue where
  | undefined : JsonValue
  | null : JsonValue
  | bool : Bool → JsonValue
  | num : Int → JsonValue
  | str : String → JsonValue
  | arr : List JsonValue → JsonValue
  | obj : List (String × JsonValue) → JsonValue

/-- A JavaScript Error object, reduced to its `message`.  All rejection
values produced by `d3.json` (fetch `TypeError`s, body `SyntaxError`s,
HTTP-status `Error`s) and by the then-handler's `throw new Error(...)`
are Error objects. -/
structure JsError where
  message : String
deriving DecidableEq

/-- `true` exactly on JavaScript `null` and `undefined` (the values
`Array.prototype.join` renders as the empty string). -/
def isNullish : JsonValue → Bool
  | .null => true
  | .undefined => true
  | _ => false

/-- JavaScript `String(v)` coercion, as used by the template literal in
the then-handler's thrown message.  Inside an array, `null` and
`undefined` render empty, per `Array.prototype.join`. -/
def jsToString : JsonValue → String
  | .undefined => "undefined"
  | .null => "null"
  | .bool true => "true"
  | .bool false => "false"
  | .num n => toString n
  | .str s => s
  | .arr elems =>
    String.intercalate "," (elems.attach.map (fun x =>
      if isNullish x.1 then "" else jsToString x.1))
  | .obj _ => "[object Object]"
decreasing_by simp_wf; have := List.sizeOf_lt_of_mem x.2; omega

/-- JavaScript property access `v[f]`: throws a `TypeError` on `null`
and `undefined`, looks fields up on objects (absent field gives
`undefined`), and gives `undefined` on every other primitive (none of
the accessed field names exists on strings, numbers, booleans or
arrays). -/
def jsField : JsonValue → String → Except JsError JsonValue
  | .undefined, f =>
    .error ⟨"TypeError: Cannot read properties of undefined (reading " ++ f ++ ")"⟩
  | .null, f =>
    .error ⟨"TypeError: Cannot read properties of null (reading " ++ f ++ ")"⟩
  | .obj fields, f =>
    .ok (match fields.lookup f with
         | some v => v
         | none => .undefined)
  | _, _ => .ok .undefined

/-- The `QueryObject` interface (App.tsx lines 12-19).  `range_unit` is
modelled as `Option String`: the TypeScript annotation only admits
`"day"`, but the runtime check is a string comparison and the spec notes
other values are unhandled at execution. -/
structure QueryObject where
  label : String
  name : String
  query : String
  range_offset : Option Int := none
  range_unit : Option String := none
  range_step : Option String := none

/-- `queries[0]` (App.tsx lines 27-31). -/
def cpus_free_q : QueryObject :=
  { label := "Free CPUs (non-GPU) by location"
    name := "cpus_free"
    query := "sum(slurm_node_cpus\x7bstate=\"free\",nodes!=\"gpu\"\x7d) by (cluster,nodes)" }

/-- `queries[1]` (App.tsx lines 32-37). -/
def cpus_allocated_q : QueryObject :=
  { label := "Allocated CPUs (non-GPU) by location"
    name := "cpus_allocated"
    query := "sum(slurm_node_cpus\x7bstate=\"alloc\",nodes!=\"gpu\"\x7d) by (cluster,nodes)" }

/-- `queries[2]` (App.tsx lines 38-43). -/
def cpus_percent_free_q : QueryObject :=
  { label := "Percent Free CPUs (non-GPU) by location"
    name := "cpus_percent_free"
    query := "sum(slurm_node_cpus\x7bstate=\"free\",nodes!=\"gpu\"\x7d) by (cluster,nodes) / sum(slurm_node_cpus\x7bnodes!=\"gpu\"\x7d) by (cluster,nodes)" }

/-- `queries[3]` (App.tsx lines 44-48). -/
def gpus_free_q : QueryObject :=
  { label := "GPUs free by location"
    name := "gpus_free"
    query := "sum(slurm_node_gpus\x7bstate=\"free\",nodes=\"gpu\"\x7d) by (cluster)" }

/-- `queries[4]` (App.tsx lines 49-53). -/
def gpus_allocated_q : QueryObject :=
  { label := "GPUs allocated by location"
    name := "gpus_allocated"
    query := "sum(slurm_node_gpus\x7bstate=\"alloc\",nodes=\"gpu\"\x7d) by (cluster)" }

/-- `queries[5]` (App.tsx lines 54-58). -/
def slurm_pending_jobs_q : QueryObject :=
  { label := "Slurm pending job requests"
    name := "slurm_pending_jobs"
    query := "sum(slurm_job_count\x7bstate=\"pending\"\x7d) by (account)" }

/-- The instant-mode catalogue `queries` (App.tsx lines 26-59). -/
def queries : List QueryObject :=
  [cpus_free_q, cpus_allocated_q, cpus_percent_free_q, gpus_free_q,
   gpus_allocated_q, slurm_pending_jobs_q]

/-- `range_queries[0]` (App.tsx lines 62-70). -/
def rusty_wait_time_q : QueryObject :=
  { label := "Rusty queue wait time over 24 hours"
    name := "rusty_wait_time"
    query := "sum(slurm_job_seconds\x7bcluster=\"iron\",state=\"pending\"\x7d) by (account)"
    range_offset := some 1
    range_unit := some "day"
    range_step := some "15m" }

/-- `range_queries[1]` (App.tsx lines 71-78). -/
def rusty_queue_length_q : QueryObject :=
  { label := "Rusty queue length over 24 hours"
    name := "rusty_queue_length"
    query := "sum(slurm_job_count\x7bstate=\"pending\"\x7d) by (account)"
    range_offset := some 1
    range_unit := some "day"
    range_step := some "15m" }

/-- `range_queries[2]` (App.tsx lines 79-86). -/
def node_count_q : QueryObject :=
  { label := "Node counts by center for the last 7 Days"
    name := "node_count"
    query := "sum(slurm_job_nodes\x7bstate=\"running\"\x7d) by (account)"
    range_offset := some 7
    range_unit := some "day"
    range_step := some "90m" }

/-- The range-mode catalogue `range_queries` (App.tsx lines 61-87). -/
def range_queries : List QueryObject :=
  [rusty_wait_time_q, rusty_queue_length_q, node_count_q]

/-- Left-pad a decimal rendering to two digits. -/
def pad2 (n : Nat) : String :=
  if n < 10 then "0" ++ toString n else toString n

/-- Left-pad a decimal rendering to three digits. -/
def pad3 (n : Nat) : String :=
  if n < 10 then "00" ++ toString n
  else if n < 100 then "0" ++ toString n
  else toString n

/-- Left-pad a decimal rendering to four digits (proleptic-Gregorian
years in the range the program can produce). -/
def pad4 (n : Int) : String :=
  if n < 0 then "-" ++ toString (-n)
  else if n < 10 then "000" ++ toString n
  else if n < 100 then "00" ++ toString n
  else if n < 1000 then "0" ++ toString n
  else toString n

/-- Civil date (year, month, day) of a count of days since 1970-01-01,
proleptic Gregorian (Howard Hinnant's `civil_from_days`, written with
Euclidean division so negative day counts floor correctly). -/
def civilFromDays (z0 : Int) : Int × Int × Int :=
  let z := z0 + 719468
  let era := Int.ediv z 146097
  let doe := z - era * 146097
  let yoe := Int.ediv (doe - Int.ediv doe 1460 + Int.ediv doe 36524 - Int.ediv doe 146096) 365
  let y := yoe + era * 400
  let doy := doe - (365 * yoe + Int.ediv yoe 4 - Int.ediv yoe 100)
  let mp := Int.ediv (5 * doy + 2) 153
  let d := doy - Int.ediv (153 * mp + 2) 5 + 1
  let m := if mp < 10 then mp + 3 else mp - 9
  ((if m ≤ 2 then y + 1 else y), m, d)

/-- `Date.prototype.toISOString` on an epoch-millisecond timestamp:
`YYYY-MM-DDTHH:mm:ss.sssZ` in UTC. -/
def toISOString (ms : Int) : String :=
  let day := Int.ediv ms 86400000
  let msOfDay := (ms - day * 86400000).toNat
  let ymd := civilFromDays day
  pad4 ymd.1 ++ "-" ++ pad2 ymd.2.1.toNat ++ "-" ++ pad2 ymd.2.2.toNat ++
    "T" ++ pad2 (msOfDay / 3600000) ++ ":" ++ pad2 (msOfDay / 60000 % 60) ++
    ":" ++ pad2 (msOfDay / 1000 % 60) ++ "." ++ pad3 (msOfDay % 1000) ++ "Z"

/-- Drop every pair with the given key. -/
def searchParamsRemove (ps : List (String × String)) (k : String) : List (String × String) :=
  ps.filter (fun p => !(p.1 == k))

/-- `URLSearchParams.prototype.set`: replace the first pair with the
given key in place (dropping later duplicates) or append a fresh pair. -/
def searchParamsSet : List (String × String) → String → String → List (String × String)
  | [], k, v => [(k, v)]
  | p :: rest, k, v =>
    if p.1 == k then (k, v) :: searchParamsRemove rest k
    else p :: searchParamsSet rest k v

/-- The two service endpoints (App.tsx lines 97-99). -/
def api_base (is_range_query : Bool) : String :=
  if is_range_query then "http://prometheus.flatironinstitute.org/api/v1/query_range"
  else "http://prometheus.flatironinstitute.org/api/v1/query"

/-- The search parameters built by `fetch_prometheus_data` before the
request is issued (App.tsx lines 101-113), as key/value pairs prior to
the standard percent-encoding of `url.search = search_params.toString()`.
`d3.timeDay.offset(end, -k)` is modelled as `end - k * 86400000`.  The
`.error` case models the `RangeError` thrown by `toISOString` on an
invalid date, reachable only when `range_unit` is `"day"` while
`range_offset` is absent (the offset is then `NaN`); an absent
`range_step` is stringified to `"undefined"` by `URLSearchParams.set`. -/
def build_search_params (query_object : QueryObject) (is_range_query : Bool)
    (now : Int) : Except JsError (List (String × String)) :=
  let search_params := [("query", query_object.query)]
  if is_range_query then
    if query_object.range_unit == some "day" then
      match query_object.range_offset with
      | some k =>
        let start := now - k * 86400000
        .ok (searchParamsSet (searchParamsSet (searchParamsSet search_params
              "start" (toISOString start)) "end" (toISOString now)) "step"
              (match query_object.range_step with | some s => s | none => "undefined"))
      | none => .error ⟨"RangeError: Invalid time value"⟩
    else .ok search_params
  else .ok search_params

/-- The settlement of the `d3.json(url)` promise, supplied by the
environment: a rejection carrying an Error object (network failure,
non-OK HTTP status, JSON syntax error) or a resolution carrying the
decoded body (App.tsx lines 115-116). -/
inductive D3JsonOutcome where
  | reject : JsError → D3JsonOutcome
  | resolve : JsonValue → D3JsonOutcome

/-- The then-handler (App.tsx lines 117-124): on a `"success"` envelope
return `body.data.result`; otherwise throw an Error whose message
interpolates `body.error` (the service-error path). -/
def then_handler (body : JsonValue) : Except JsError JsonValue := do
  let status ← jsField body "status"
  let isSuccess := match status with | .str s => s == "success" | _ => false
  if isSuccess then
    let data ← jsField body "data"
    jsField data "result"
  else
    let e ← jsField body "error"
    Except.error ⟨"Prometheus error: " ++ jsToString e⟩

/-- The catch handler (App.tsx line 126): `err.statusText` on the Error
objects the chain can reject with is `undefined`; `Error(undefined)` is
constructed only to be logged, and `console.log` returns `undefined`,
which becomes the resolution value of the caught chain. -/
def catch_handler (_e : JsError) : Except JsError JsonValue :=
  .ok .undefined

/-- `fetch_prometheus_data` (App.tsx lines 92-127), as the settlement of
the promise it returns, given the wall clock `now` and the settlement
`outcome` of `d3.json`.  A throw before `d3.json` is reached — only the
`RangeError` from building the search parameters — rejects the returned
promise, because it happens outside the `.catch`-guarded chain; every
rejection of the `d3.json(...).then(...)` chain itself is swallowed by
the catch handler. -/
def fetch_prometheus_data (query_object : QueryObject) (is_range_query : Bool)
    (now : Int) (outcome : D3JsonOutcome) : Except JsError JsonValue :=
  match build_search_params query_object is_range_query now with
  | .error e => .error e
  | .ok _ =>
    match outcome with
    | .reject e => catch_handler e
    | .resolve body =>
      match then_handler body with
      | .ok v => .ok v
      | .error e => catch_handler e

/-- A settled JavaScript promise: the time at which it settled plus its
settlement (resolution value or rejection value). -/
structure JsPromise (α : Type) where
  time : Int
  result : Except JsError α

/-- The environment of one fetch-all cycle: for every (query, mode)
pair, the settlement of its `d3.json` request and the delay after which
that request settles. -/
structure FetchEnv where
  outcome : QueryObject → Bool → D3JsonOutcome
  delay : QueryObject → Bool → Int

/-- The members of `ps` that reject, with their settlement times. -/
def promiseRejections {α : Type} (ps : List (JsPromise α)) : List (Int × JsError) :=
  ps.filterMap (fun p =>
    match p.result with
    | .error e => some (p.time, e)
    | .ok _ => none)

/-- The element with the least time (first wins ties), if any. -/
def earliestOf : List (Int × JsError) → Option (Int × JsError)
  | [] => none
  | x :: xs => some (xs.foldl (fun a b => if b.1 < a.1 then b else a) x)

/-- `Promise.all` (ECMA-262): rejects with the first rejection to
settle; otherwise resolves, once the last member has settled, with the
resolution values in input-array order — never in completion order. -/
def promiseAll {α : Type} (ps : List (JsPromise α)) : JsPromise (List α) :=
  match earliestOf (promiseRejections ps) with
  | some te => { time := te.1, result := .error te.2 }
  | none =>
    { time := (ps.map (fun p => p.time)).foldl max 0
      result := .ok (ps.filterMap (fun p =>
        match p.result with
        | .ok a => some a
        | .error _ => none)) }

/-- One element of the aggregated result (App.tsx lines 130-133): the
originating definition paired with the awaited `data`. -/
structure AggEntry where
  query : QueryObject
  data : JsonValue

/-- One element of the `queries.map` / `range_queries.map` fan-out
(App.tsx lines 130-138): an async arrow pairing the definition with the
awaited fetch; its promise settles when the fetch settles and rejects
iff the fetch rejects. -/
def entry_promise (now : Int) (env : FetchEnv) (query_object : QueryObject)
    (is_range_query : Bool) : JsPromise AggEntry :=
  { time := env.delay query_object is_range_query
    result := (fetch_prometheus_data query_object is_range_query now
                 (env.outcome query_object is_range_query)).map
              (fun d => { query := query_object, data := d }) }

/-- `fetch_all_prometheus_data` (App.tsx lines 129-141):
`Promise.all([...non_range_data, ...range_data])`. -/
def fetch_all_prometheus_data (now : Int) (env : FetchEnv) : JsPromise (List AggEntry) :=
  promiseAll
    (queries.map (fun q => entry_promise now env q false) ++
     range_queries.map (fun q => entry_promise now env q true))

/-- `data_loaded_signal` (App.tsx lines 8-10) as a function of the value
stored in `data_signal`. -/
def data_loaded_signal (data_signal : List AggEntry) : Bool :=
  decide (data_signal.length > 0)

/-- The resolution value an individual fetch settles with once its
request reaches the `.catch`-guarded chain: the decoded `data.result` on
a success envelope, and `undefined` (the catch handler's value) on every
failure. -/
def settled_data (outcome : D3JsonOutcome) : JsonValue :=
  match outcome with
  | .reject _ => .undefined
  | .resolve body =>
    match then_handler body with
    | .ok v => v
    | .error _ => .undefined

/-- The aggregated entries produced by one fetch-all cycle, as a pure
function of the environment's `d3.json` outcomes: instant-mode entries
first, then range-mode entries, each in catalogue order. -/
def aggregated_entries (env : FetchEnv) : List AggEntry :=
  queries.map (fun q => { query := q, data := settled_data (env.outcome q false) }) ++
  range_queries.map (fun q => { query := q, data := settled_data (env.outcome q true) })

/-- A service-error envelope with the given message. -/
def errorEnvelope (msg : String) : JsonValue :=
  .obj [("status", .str "error"), ("error", .str msg)]

/-- A success envelope whose `data.result` is the given value. -/
def successEnvelope (result : JsonValue) : JsonValue :=
  .obj [("status", .str "success"), ("data", .obj [("result", result)])]

/-- The spec's synthetic success envelope: one series with metric
cluster = x and the sample (1700000000, "4"). -/
def success_probe_body : JsonValue :=
  successEnvelope (.arr [.obj [("metric", .obj [("cluster", .str "x")]),
                               ("value", .arr [.num 1700000000, .str "4"])]])

/-- An environment in which exactly the instant query named `cpus_free`
fails with a service error carrying `msg`, and every other request
succeeds with `result` as its decoded series list; everything settles
immediately. -/
def env_one_failure (msg : String) (result : JsonValue) : FetchEnv :=
  { outcome := fun q _ =>
      if q.name == "cpus_free" then .resolve (errorEnvelope msg)
      else .resolve (successEnvelope result)
    delay := fun _ _ => 0 }

/-- An outcome assignment in which every request fails in transport. -/
def all_down_outcome : QueryObject → Bool → D3JsonOutcome :=
  fun _ _ => .reject ⟨"Failed to fetch"⟩

/-- All requests fail in transport and settle immediately. -/
def env_fast : FetchEnv := ⟨all_down_outcome, fun _ _ => 0⟩

/-- Same outcomes as `env_fast`, under scrambled completion delays. -/
def env_slow : FetchEnv := ⟨all_down_outcome, fun _ b => if b then 250 else 10⟩

/-- A range definition with an unrecognized unit (the spec's example
`"week"`), exercising the builder's unit fallthrough. -/
def week_probe_q : QueryObject :=
  { label := "Probe over a week"
    name := "week_probe"
    query := "up"
    range_offset := some 1
    range_unit := some "week"
    range_step := some "15m" }

/- ------------------------------------------------------------------
Theorems.
------------------------------------------------------------------- -/

theorem jsToString_str (s : String) : jsToString (.str s) = s := by
  rw [jsToString]

example : toISOString 0 = "1970-01-01T00:00:00.000Z" := by decide
example : toISOString 604800000 = "1970-01-08T00:00:00.000Z" := by decide
example : toISOString (-86400000) = "1969-12-31T00:00:00.000Z" := by decide
example : toISOString 1700000000000 = "2023-11-14T22:13:20.000Z" := by decide

lemma fetch_eq_of_build_ok (q : QueryObject) (b : Bool) (now : Int)
    (o : D3JsonOutcome) (ps : List (String × String))
    (hb : build_search_params q b now = .ok ps) :
    fetch_prometheus_data q b now o = .ok (settled_data o) := by
  unfold fetch_prometheus_data
  rw [hb]
  cases o with
  | reject e => rfl
  | resolve body =>
    unfold settled_data
    cases h : then_handler body <;> simp [h, catch_handler]

lemma entry_result_eq (now : Int) (env : FetchEnv) (q : QueryObject) (b : Bool)
    (ps : List (String × String)) (hb : build_search_params q b now = .ok ps) :
    (entry_promise now env q b).result =
      .ok { query := q, data := settled_data (env.outcome q b) } := by
  unfold entry_promise
  rw [fetch_eq_of_build_ok q b now _ ps hb]
  rfl

lemma fetch_all_result_eq (now : Int) (env : FetchEnv) :
    (fetch_all_prometheus_data now env).result = .ok (aggregated_entries env) := by
  have h1 := entry_result_eq now env cpus_free_q false _ rfl
  have h2 := entry_result_eq now env cpus_allocated_q false _ rfl
  have h3 := entry_result_eq now env cpus_percent_free_q false _ rfl
  have h4 := entry_result_eq now env gpus_free_q false _ rfl
  have h5 := entry_result_eq now env gpus_allocated_q false _ rfl
  have h6 := entry_result_eq now env slurm_pending_jobs_q false _ rfl
  have h7 := entry_result_eq now env rusty_wait_time_q true _ rfl
  have h8 := entry_result_eq now env rusty_queue_length_q true _ rfl
  have h9 := entry_result_eq now env node_count_q true _ rfl
  simp [fetch_all_prometheus_data, queries, range_queries, promiseAll,
        promiseRejections, earliestOf, aggregated_entries,
        h1, h2, h3, h4, h5, h6, h7, h8, h9]

/-- C9: the `name` fields of all nine catalogue entries (the six
instant-mode definitions and the three range-mode definitions) are
pairwise distinct. -/
theorem catalogue_names_unique :
    ((queries ++ range_queries).map QueryObject.name).Nodup := by
  decide

/-- C5: for every query definition executed in instant mode, the request
targets the instant-query endpoint and its query string carries exactly
one parameter, `query`, holding the raw query expression — no `start`,
`end` or `step`. -/
theorem instant_url_single_query_param (q : QueryObject) (now : Int) :
    api_base false = "http://prometheus.flatironinstitute.org/api/v1/query" ∧
    build_search_params q false now = .ok [("query", q.query)] :=
  ⟨rfl, rfl⟩

/-- C6: in range mode with `range_unit = "day"` and `range_offset = k`,
the built parameters are exactly `query`, then `start` = `end` minus `k`
days, `end` = the wall clock at call time, and `step` = the configured
`range_step` verbatim. -/
theorem range_url_window (q : QueryObject) (k : Int) (s : String) (now : Int)
    (h1 : q.range_unit = some "day") (h2 : q.range_offset = some k)
    (h3 : q.range_step = some s) :
    build_search_params q true now =
      .ok [("query", q.query), ("start", toISOString (now - k * 86400000)),
           ("end", toISOString now), ("step", s)] := by
  simp [build_search_params, h1, h2, h3, searchParamsSet, searchParamsRemove]

/-- Witness for `range_url_window`: `rusty_wait_time_q` with the wall
clock at 1970-01-08T00:00:00Z. -/
theorem range_url_window_witness :
    rusty_wait_time_q.range_unit = some "day" ∧
    rusty_wait_time_q.range_offset = some 1 ∧
    rusty_wait_time_q.range_step = some "15m" ∧
    build_search_params rusty_wait_time_q true 604800000 =
      .ok [("query", rusty_wait_time_q.query),
           ("start", "1970-01-07T00:00:00.000Z"),
           ("end", "1970-01-08T00:00:00.000Z"),
           ("step", "15m")] :=
  ⟨rfl, rfl, rfl, by
    rw [range_url_window rusty_wait_time_q 1 "15m" 604800000 rfl rfl rfl]
    rfl⟩

/-- C2: the aggregator's promise always resolves and never rejects — for
every environment, i.e. every combination of per-query `d3.json`
settlements (success envelopes, transport rejections, service-error
envelopes, undecodable bodies), `fetch_all_prometheus_data` resolves
with a complete list of entries. -/
theorem fetch_all_never_rejects (now : Int) (env : FetchEnv) :
    ∃ entries : List AggEntry,
      (fetch_all_prometheus_data now env).result = Except.ok entries :=
  ⟨aggregated_entries env, fetch_all_result_eq now env⟩

/-- C10: every fetch-all cycle resolves with exactly 9 entries — one per
catalogue definition, each entry's `query` field being the originating
definition — regardless of how many individual fetches fail, so the
derived loaded signal (length > 0) is true after any completed cycle. -/
theorem fetch_all_nine_entries (now : Int) (env : FetchEnv) :
    ∃ entries : List AggEntry,
      (fetch_all_prometheus_data now env).result = Except.ok entries ∧
      entries.length = 9 ∧
      entries.map AggEntry.query = queries ++ range_queries ∧
      data_loaded_signal entries = true := by
  refine ⟨aggregated_entries env, fetch_all_result_eq now env, ?_, ?_, ?_⟩ <;>
    simp [aggregated_entries, queries, range_queries, data_loaded_signal]

/-- C4: the aggregated sequence lists all instant-mode entries first, in
catalogue order, then all range-mode entries in catalogue order; and two
runs with the same per-query outcomes but arbitrary different per-query
completion delays settle with identical results. -/
theorem fetch_all_order_deterministic (now : Int) (env1 env2 : FetchEnv)
    (h : env1.outcome = env2.outcome) :
    (fetch_all_prometheus_data now env1).result =
      (fetch_all_prometheus_data now env2).result ∧
    ∀ entries, (fetch_all_prometheus_data now env1).result = Except.ok entries →
      entries.map AggEntry.query = queries ++ range_queries := by
  constructor
  · rw [fetch_all_result_eq, fetch_all_result_eq]
    unfold aggregated_entries
    rw [h]
  · intro entries he
    rw [fetch_all_result_eq] at he
    simp only [Except.ok.injEq] at he
    subst he
    simp [aggregated_entries, queries, range_queries]

/-- Witness for `fetch_all_order_deterministic`: the same all-failing
outcomes under immediate versus scrambled completion delays. -/
theorem fetch_all_order_deterministic_witness :
    env_fast.outcome = env_slow.outcome ∧
    ((fetch_all_prometheus_data 0 env_fast).result =
       (fetch_all_prometheus_data 0 env_slow).result ∧
     ∀ entries, (fetch_all_prometheus_data 0 env_fast).result = Except.ok entries →
       entries.map AggEntry.query = queries ++ range_queries) :=
  ⟨rfl, fetch_all_order_deterministic 0 env_fast env_slow rfl⟩

/-- C8: decoding the synthetic success envelope with one series of
metric cluster = x and sample (1700000000, "4") resolves the fetch with
exactly that one-element series list. -/
theorem success_envelope_roundtrip :
    fetch_prometheus_data cpus_free_q false 0 (.resolve success_probe_body) =
      .ok (.arr [.obj [("metric", .obj [("cluster", .str "x")]),
                       ("value", .arr [.num 1700000000, .str "4"])]]) :=
  rfl

/-- C7 counterexample: on the body with status error and message
"bad query", the fetch's single-query result is not a failure value at
all — the promise resolves, and with `undefined`, which carries neither
a `ServiceError` marker nor the message. -/
theorem service_error_swallowed_cex :
    fetch_prometheus_data cpus_free_q false 0
        (.resolve (errorEnvelope "bad query")) = .ok JsonValue.undefined :=
  rfl

/-- C7 amended: for every error envelope, the then-handler does throw an
Error carrying the service-provided message (inside the fixed
"Prometheus error: " prefix), but the catch handler swallows it, so the
single-query result resolves with `undefined` instead of failing. -/
theorem service_error_message_then_swallowed (msg : String) :
    then_handler (errorEnvelope msg) = .error ⟨"Prometheus error: " ++ msg⟩ ∧
    fetch_prometheus_data cpus_free_q false 0 (.resolve (errorEnvelope msg)) =
      .ok JsonValue.undefined := by
  have hth : then_handler (errorEnvelope msg) =
      .error ⟨"Prometheus error: " ++ jsToString (.str msg)⟩ := rfl
  rw [jsToString_str] at hth
  refine ⟨hth, ?_⟩
  simp [fetch_prometheus_data, build_search_params, hth, catch_handler]

/-- C1 counterexample: when exactly the instant query `cpus_free` fails
with a service error, the error is not carried anywhere in the
aggregate: the run failing with message "boom" settles with an output
identical to the run failing with the different message "zap", so the
failing entry cannot be carrying the originating error. -/
theorem failure_entry_lacks_error_cex :
    (env_one_failure "boom" (.arr [])).outcome cpus_free_q false =
      .resolve (errorEnvelope "boom") ∧
    (env_one_failure "zap" (.arr [])).outcome cpus_free_q false =
      .resolve (errorEnvelope "zap") ∧
    "boom" ≠ "zap" ∧
    fetch_all_prometheus_data 0 (env_one_failure "boom" (.arr [])) =
      fetch_all_prometheus_data 0 (env_one_failure "zap" (.arr [])) :=
  ⟨rfl, rfl, by decide, rfl⟩

/-- C1 amended: with exactly one instant query failing (here with a
service error of arbitrary message) and all eight sibling queries
succeeding, `fetch_all_prometheus_data` resolves with all 6 + 3 entries
in catalogue order, each carrying its originating definition (and hence
its `name`); the failing query's entry is not marked failed and does not
carry the error — its `data` is `undefined` (the error was logged and
swallowed) — while every sibling entry carries its decoded result. -/
theorem one_failure_isolation (msg : String) (result : JsonValue) :
    (fetch_all_prometheus_data 0 (env_one_failure msg result)).result =
      Except.ok
        (queries.map (fun q =>
           { query := q
             data := if q.name == "cpus_free" then JsonValue.undefined else result }) ++
         range_queries.map (fun q => { query := q, data := result })) := by
  rw [fetch_all_result_eq]
  rfl

/-- C3 (the code's behavior at the failing input): executing a range
definition whose `range_unit` is the unrecognized `"week"` raises no
error at request-construction time — the builder silently yields a
range-endpoint request whose only parameter is `query`, with no `start`,
`end` or `step` window parameters, and the fetch proceeds to issue it. -/
theorem unsupported_unit_silent_fallthrough :
    build_search_params week_probe_q true 0 = .ok [("query", "up")] ∧
    api_base true = "http://prometheus.flatironinstitute.org/api/v1/query_range" ∧
    fetch_prometheus_data week_probe_q true 0
        (.resolve (successEnvelope (.arr []))) = .ok (.arr []) :=
  ⟨rfl, rfl, rfl⟩
